import Mathlib

/-!
Verification of the progress-reporting component of the lunrlust/utility
repository against its natural-language specification.

The repository contains two variants of the progress utility:
  * a throttled variant in src/src/utils/logger.js (createProgressBar,
    updateProgress, completeProgress, lines 143-206), which stores a
    (lastUpdate, lastValue) sample pair and recomputes the displayed speed
    only when at least 100ms have elapsed since the stored sample;
  * a simple variant in src/unnamed/part_001 (lines 25-74), which computes
    the displayed speed as the all-time average value / elapsed.

Numbers are modelled as exact rationals; JavaScript division by zero is
modelled explicitly (Infinity / -Infinity / NaN) where the source can hit it.
The final string formatting (Number.prototype.toFixed) is abstracted: the
display fields keep the exact numeric value that the source formats, plus
explicit constructors for the placeholder texts the source assigns.
Timestamps are milliseconds, as returned by Date.now().
-/

/-- Result of a JavaScript division: a finite rational, positive or negative
Infinity, or NaN. -/
inductive JSNum where
  | fin : ℚ → JSNum
  | inf : JSNum
  | neginf : JSNum
  | nan : JSNum
deriving DecidableEq, Repr

/-- JavaScript division of two (finitely-valued) numbers: `a / b` is the
rational quotient when `b ≠ 0`; when `b = 0` it is Infinity for `a > 0`,
-Infinity for `a < 0`, and NaN for `a = 0`. -/
def jsDiv (a b : ℚ) : JSNum :=
  if b ≠ 0 then JSNum.fin (a / b)
  else if 0 < a then JSNum.inf
  else if a < 0 then JSNum.neginf
  else JSNum.nan

/-- The text shown in the {speed} slot of the bar format string.
`na` is the literal "N/A"; `done` is the literal "Done" set by
completeProgress in logger.js; `rate q` is `q.toFixed(2)` as assigned by the
throttled updateProgress; `mbps q` is `q.toFixed(2)` followed by " MB/s" as assigned by
the simple updateProgress of part_001. -/
inductive SpeedText where
  | na : SpeedText
  | done : SpeedText
  | rate : ℚ → SpeedText
  | mbps : ℚ → SpeedText
deriving DecidableEq, Repr

/-- The text shown in the {eta} slot. `na` is the literal "N/A"; `num q` is
`q.toFixed(0)` for a finite quotient `q`; `infinity`, `neginfinity` and
`nanText` are the strings produced by calling toFixed on Infinity, -Infinity
and NaN. -/
inductive EtaText where
  | na : EtaText
  | num : ℚ → EtaText
  | infinity : EtaText
  | neginfinity : EtaText
  | nanText : EtaText
deriving DecidableEq, Repr

/-- The eta string computed by the source: toFixed(0) applied to the result
of the JavaScript division. -/
def etaTextOfJSNum : JSNum → EtaText
  | JSNum.fin q => EtaText.num q
  | JSNum.inf => EtaText.infinity
  | JSNum.neginf => EtaText.neginfinity
  | JSNum.nan => EtaText.nanText

/-- State of one progress bar row. `total` and `value` are the cli-progress
bar total and current value; `speed` and `eta` are the payload fields shown
in the format string; `start` is the creation timestamp set by
createProgressBar; `lastUpdate` and `lastValue` are the throttle sample pair
used only by the logger.js variant (the part_001 variant never reads or
writes them). Timestamps are in milliseconds. -/
structure Bar where
  total : ℚ
  value : ℚ
  speed : SpeedText
  eta : EtaText
  start : ℚ
  lastUpdate : ℚ
  lastValue : ℚ
deriving DecidableEq, Repr

/-- cli-progress GenericBar.update(value, payload): stores the new value and
overwrites the payload fields supplied. -/
def barUpdate (bar : Bar) (value : ℚ) (speed : SpeedText) (eta : EtaText) : Bar :=
  { bar with value := value, speed := speed, eta := eta }

/-- cli-progress GenericBar.update(value) with no payload argument: stores
the new value and leaves the payload fields unchanged. Used by
completeProgress in part_001 (line 70). -/
def barUpdateValue (bar : Bar) (value : ℚ) : Bar :=
  { bar with value := value }

/-- createProgressBar of src/src/utils/logger.js lines 143-157:
multiBar.create(totalSize, 0, \x7bspeed: "N/A", eta: "N/A"\x7d), then
bar.start = Date.now(); bar.lastUpdate = Date.now(); bar.lastValue = 0.
`now` stands for Date.now() at the call. -/
def createProgressBar (totalSize : ℚ) (now : ℚ) : Bar :=
  { total := totalSize
    value := 0
    speed := SpeedText.na
    eta := EtaText.na
    start := now
    lastUpdate := now
    lastValue := 0 }

/-- createProgressBar of src/unnamed/part_001 lines 25-37: identical except
that lastUpdate and lastValue are never assigned (they are undefined in the
JavaScript object and never read by the part_001 functions; they are given
the same initial values here so both variants share one state type). -/
def createProgressBarSimple (totalSize : ℚ) (now : ℚ) : Bar :=
  { total := totalSize
    value := 0
    speed := SpeedText.na
    eta := EtaText.na
    start := now
    lastUpdate := now
    lastValue := 0 }

/-- updateProgress of src/src/utils/logger.js lines 164-185 (the throttled
variant). timeDiff = (now - bar.lastUpdate) / 1000; valueDiff =
value - bar.lastValue; speed starts as "N/A" and is recomputed as
(valueDiff / timeDiff).toFixed(2) - with bar.lastUpdate and bar.lastValue
overwritten - only when timeDiff >= 0.1; elapsedTime = (now - bar.start) /
1000; eta = elapsedTime > 0 ? ((bar.total - value) / (value /
elapsedTime)).toFixed(0) : "N/A"; finally bar.update(value, \x7bspeed,
eta\x7d). -/
def updateProgress (bar : Bar) (value : ℚ) (now : ℚ) : Bar :=
  let timeDiff : ℚ := (now - bar.lastUpdate) / 1000
  let valueDiff : ℚ := value - bar.lastValue
  let throttled := if timeDiff ≥ 1/10
    then (SpeedText.rate (valueDiff / timeDiff), now, value)
    else (SpeedText.na, bar.lastUpdate, bar.lastValue)
  let elapsedTime : ℚ := (now - bar.start) / 1000
  let eta := if elapsedTime > 0
    then etaTextOfJSNum (jsDiv (bar.total - value) (value / elapsedTime))
    else EtaText.na
  barUpdate { bar with lastUpdate := throttled.2.1, lastValue := throttled.2.2 }
    value throttled.1 eta

/-- updateProgress of src/unnamed/part_001 lines 44-56 (the simple variant).
elapsedTime = (Date.now() - bar.start) / 1000; speed = elapsedTime > 0 ?
(value / elapsedTime).toFixed(2) + " MB/s" : "N/A"; eta = elapsedTime > 0 ?
((bar.total - value) / (value / elapsedTime)).toFixed(0) : "N/A"; then
bar.update(value, \x7bspeed, eta\x7d). -/
def updateProgressSimple (bar : Bar) (value : ℚ) (now : ℚ) : Bar :=
  let elapsedTime : ℚ := (now - bar.start) / 1000
  let speed := if elapsedTime > 0
    then SpeedText.mbps (value / elapsedTime)
    else SpeedText.na
  let eta := if elapsedTime > 0
    then etaTextOfJSNum (jsDiv (bar.total - value) (value / elapsedTime))
    else EtaText.na
  barUpdate bar value speed eta

/-- completeProgress of src/src/utils/logger.js lines 198-206:
bar.update(bar.total, \x7bspeed: "Done", eta: "0"\x7d). The string "0" is
(0).toFixed(0). -/
def completeProgress (bar : Bar) : Bar :=
  barUpdate bar bar.total SpeedText.done (EtaText.num 0)

/-- completeProgress of src/unnamed/part_001 lines 69-74: bar.update(bar.total)
with no payload, so speed and eta keep their previous text. -/
def completeProgressSimple (bar : Bar) : Bar :=
  barUpdateValue bar bar.total

/-- The all-time average rate named by the spec: averageRate =
value / elapsedTimeSinceStart, with elapsed time in seconds. -/
def averageRate (bar : Bar) (value : ℚ) (now : ℚ) : ℚ :=
  value / ((now - bar.start) / 1000)

/-- One call made by a driver against a progress bar: either
updateProgress(bar, value) at a given Date.now() timestamp, or
completeProgress(bar). -/
inductive ProgressOp where
  | update : ℚ → ℚ → ProgressOp
  | complete : ProgressOp
deriving DecidableEq, Repr

/-- Apply one driver call using the logger.js (throttled) variant. -/
def applyOp (bar : Bar) : ProgressOp → Bar
  | ProgressOp.update v now => updateProgress bar v now
  | ProgressOp.complete => completeProgress bar

/-- Apply one driver call using the part_001 (simple) variant. -/
def applyOpSimple (bar : Bar) : ProgressOp → Bar
  | ProgressOp.update v now => updateProgressSimple bar v now
  | ProgressOp.complete => completeProgressSimple bar

/-- Run a sequence of driver calls against a bar, logger.js variant. -/
def runOps (bar : Bar) (ops : List ProgressOp) : Bar :=
  ops.foldl applyOp bar

/-- Run a sequence of driver calls against a bar, part_001 variant. -/
def runOpsSimple (bar : Bar) (ops : List ProgressOp) : Bar :=
  ops.foldl applyOpSimple bar

/-- The constant-rate scenario of spec section 8, item 6: a tracker created at
time 0 with the given total, where the k-th update (k = 1, 2, ...) passes
value k * inc at time k * step milliseconds, for fixed increment inc and
fixed time step. -/
def runConstantRate (total inc step : ℚ) : ℕ → Bar
  | 0 => createProgressBar total 0
  | n + 1 => updateProgress (runConstantRate total inc step n)
      (((n : ℚ) + 1) * inc) (((n : ℚ) + 1) * step)

/-- The values the download drivers pass to updateProgress: each data chunk
adds chunk.length / (1024 * 1024) megabytes to downloadedSize, and the driver
calls updateProgress(bar, Math.min(downloadedSize, expectedSize)). Embeds the
per-chunk callback of src/src/modules/devSetup.js (lines 117-121 and the five
analogous download loops) and src/unnamed/part_000 (lines 659-663 and the
three analogous download loops). -/
def downloadProgressValues (chunkLengths : List ℕ) (expectedSize : ℚ) : List ℚ :=
  (((chunkLengths.map (fun c => (c : ℚ) / (1024 * 1024))).scanl
      (fun acc mb => acc + mb) 0).tail).map
    (fun downloadedSize => min downloadedSize expectedSize)

/-- The values the folder-creation loop of src/src/modules/driveSetup.js
(lines 276-294) passes to updateProgress: i + 1 for i = 0, ...,
folderCount - 1, against a bar created with total folderCount. -/
def folderProgressValues (folderCount : ℕ) : List ℕ :=
  (List.range folderCount).map (fun i => i + 1)

/-- updateProgressSimple shares the eta computation of updateProgress; this
helper states its value under the same positivity conditions. -/
theorem updateProgressSimple_eta_pos (bar : Bar) (v now : ℚ)
    (ht : 0 < (now - bar.start) / 1000)
    (hr : v / ((now - bar.start) / 1000) ≠ 0) :
    (updateProgressSimple bar v now).eta =
      EtaText.num ((bar.total - v) / (v / ((now - bar.start) / 1000))) := by
  simp only [updateProgressSimple, barUpdate, jsDiv, etaTextOfJSNum]
  rw [if_pos ht, if_pos hr]

theorem updateProgress_total (bar : Bar) (v now : ℚ) :
    (updateProgress bar v now).total = bar.total := rfl

theorem updateProgress_start (bar : Bar) (v now : ℚ) :
    (updateProgress bar v now).start = bar.start := rfl

theorem updateProgressSimple_total (bar : Bar) (v now : ℚ) :
    (updateProgressSimple bar v now).total = bar.total := rfl

theorem updateProgressSimple_start (bar : Bar) (v now : ℚ) :
    (updateProgressSimple bar v now).start = bar.start := rfl

theorem updateProgress_eta_pos (bar : Bar) (v now : ℚ)
    (ht : 0 < (now - bar.start) / 1000)
    (hr : v / ((now - bar.start) / 1000) ≠ 0) :
    (updateProgress bar v now).eta =
      EtaText.num ((bar.total - v) / (v / ((now - bar.start) / 1000))) := by
  simp only [updateProgress, barUpdate, jsDiv, etaTextOfJSNum]
  rw [if_pos ht, if_pos hr]

theorem updateProgress_speed_skip (bar : Bar) (v now : ℚ)
    (h : (now - bar.lastUpdate) / 1000 < 1/10) :
    (updateProgress bar v now).speed = SpeedText.na ∧
    (updateProgress bar v now).lastUpdate = bar.lastUpdate ∧
    (updateProgress bar v now).lastValue = bar.lastValue := by
  simp only [updateProgress, barUpdate, if_neg (not_le.mpr h)]
  exact ⟨trivial, trivial, trivial⟩

theorem updateProgress_speed_recompute (bar : Bar) (v now : ℚ)
    (h : (now - bar.lastUpdate) / 1000 ≥ 1/10) :
    (updateProgress bar v now).speed =
      SpeedText.rate ((v - bar.lastValue) / ((now - bar.lastUpdate) / 1000)) ∧
    (updateProgress bar v now).lastUpdate = now ∧
    (updateProgress bar v now).lastValue = v := by
  simp only [updateProgress, barUpdate, if_pos h]
  exact ⟨trivial, trivial, trivial⟩

/-- C1 counterexample: on a bar with total 100 created at time 0, calling
updateProgress with value 150 at time 200ms stores and displays 150, not the
total 100, and the ETA is computed from the unclamped value (it is negative). -/
theorem c1_counterexample :
    (updateProgress (createProgressBar 100 0) 150 200).value = 150 ∧
    (updateProgress (createProgressBar 100 0) 150 200).value ≠
      (createProgressBar 100 0).total ∧
    (updateProgress (createProgressBar 100 0) 150 200).eta =
      EtaText.num (-(1/15)) := by
  norm_num [updateProgress, createProgressBar, barUpdate, jsDiv, etaTextOfJSNum]

/-- C1 amended: updateProgress performs no clamping in either variant; the
stored and displayed value is exactly the value argument, even when it
exceeds the total, and the call never errors (both functions are total). -/
theorem c1_no_clamp (bar : Bar) (value now : ℚ) :
    (updateProgress bar value now).value = value ∧
    (updateProgressSimple bar value now).value = value :=
  ⟨rfl, rfl⟩

/-- C2 counterexample: bar created at 0; update(10) at 200ms reports rate 50;
a second update(12) at 250ms (50ms later) reports the placeholder N/A, not
the previous rate, so the reported rate is not identical between two calls
less than 100ms apart. Moreover update(20) at 400ms (200ms after the stored
sample, different value) reports rate 50 again, so the rate does not change
for updates ≥100ms apart with different values. -/
theorem c2_counterexample :
    (updateProgress (createProgressBar 100 0) 10 200).speed = SpeedText.rate 50 ∧
    (updateProgress (updateProgress (createProgressBar 100 0) 10 200) 12 250).speed
      = SpeedText.na ∧
    SpeedText.na ≠ SpeedText.rate 50 ∧
    (updateProgress (updateProgress (createProgressBar 100 0) 10 200) 20 400).speed
      = SpeedText.rate 50 := by
  norm_num [updateProgress, createProgressBar, barUpdate, jsDiv, etaTextOfJSNum]
  decide

/-- C2 amended: the stored sample pair (lastUpdate, lastValue) is overwritten
exactly when at least 100ms has elapsed since the stored sample, in which
case the displayed speed is recomputed as valueDiff / timeDiff; when less
than 100ms has elapsed the displayed speed is the placeholder N/A (no
previously computed rate is stored or reused), and the sample pair is
unchanged. -/
theorem c2_throttle (bar : Bar) (value now : ℚ) :
    ((now - bar.lastUpdate) / 1000 < 1/10 →
      (updateProgress bar value now).speed = SpeedText.na ∧
      (updateProgress bar value now).lastUpdate = bar.lastUpdate ∧
      (updateProgress bar value now).lastValue = bar.lastValue) ∧
    ((now - bar.lastUpdate) / 1000 ≥ 1/10 →
      (updateProgress bar value now).speed =
        SpeedText.rate ((value - bar.lastValue) / ((now - bar.lastUpdate) / 1000)) ∧
      (updateProgress bar value now).lastUpdate = now ∧
      (updateProgress bar value now).lastValue = value) :=
  ⟨fun h => updateProgress_speed_skip bar value now h,
   fun h => updateProgress_speed_recompute bar value now h⟩

/-- Witness for c2_throttle: an update 50ms after creation reports N/A and an
update 200ms after creation reports the recomputed rate. -/
theorem c2_throttle_witness :
    (updateProgress (createProgressBar 100 0) 12 50).speed = SpeedText.na ∧
    (updateProgress (createProgressBar 100 0) 10 200).speed =
      SpeedText.rate ((10 - (createProgressBar 100 0).lastValue) /
        ((200 - (createProgressBar 100 0).lastUpdate) / 1000)) :=
  ⟨((c2_throttle (createProgressBar 100 0) 12 50).1 (by norm_num [createProgressBar])).1,
   ((c2_throttle (createProgressBar 100 0) 10 200).2 (by norm_num [createProgressBar])).1⟩

/-- C3 counterexample: on a bar with total 100 created at time 0, an update
with value 0 at time 10000ms (elapsed 10s > 0) reports ETA as Infinity (the
division (100 - 0) / (0 / 10) yields Infinity, and toFixed renders
"Infinity") and speed as the number 0, not the N/A placeholder. -/
theorem c3_counterexample :
    (updateProgress (createProgressBar 100 0) 0 10000).eta = EtaText.infinity ∧
    (updateProgress (createProgressBar 100 0) 0 10000).speed = SpeedText.rate 0 ∧
    EtaText.infinity ≠ EtaText.na ∧ SpeedText.rate 0 ≠ SpeedText.na ∧
    (updateProgressSimple (createProgressBarSimple 100 0) 0 10000).eta =
      EtaText.infinity ∧
    (updateProgressSimple (createProgressBarSimple 100 0) 0 10000).speed =
      SpeedText.mbps 0 := by
  norm_num [updateProgress, updateProgressSimple, createProgressBar,
    createProgressBarSimple, barUpdate, jsDiv, etaTextOfJSNum]
  exact ⟨by decide, by decide⟩

/-- On any bar, an update with value 0 at positive elapsed time and positive
total reports ETA as Infinity: the average rate 0 / elapsedTime is 0, and the
JavaScript division (total - 0) / 0 with positive numerator yields Infinity. -/
theorem updateProgress_eta_zero_value (bar : Bar) (now : ℚ)
    (ht : 0 < (now - bar.start) / 1000) (htot : 0 < bar.total) :
    (updateProgress bar 0 now).eta = EtaText.infinity := by
  simp [updateProgress, barUpdate, jsDiv, etaTextOfJSNum, ht, htot]

/-- Same as updateProgress_eta_zero_value for the simple variant, whose eta
expression is identical. -/
theorem updateProgressSimple_eta_zero_value (bar : Bar) (now : ℚ)
    (ht : 0 < (now - bar.start) / 1000) (htot : 0 < bar.total) :
    (updateProgressSimple bar 0 now).eta = EtaText.infinity := by
  simp [updateProgressSimple, barUpdate, jsDiv, etaTextOfJSNum, ht, htot]

/-- In the simple variant, an update with value 0 at positive elapsed time
displays speed 0 (0 / elapsedTime), not the N/A placeholder. -/
theorem updateProgressSimple_speed_zero_value (bar : Bar) (now : ℚ)
    (ht : 0 < (now - bar.start) / 1000) :
    (updateProgressSimple bar 0 now).speed = SpeedText.mbps 0 := by
  simp [updateProgressSimple, barUpdate, ht]

/-- C3 amended: updateProgress is a total function (it never throws). On a
freshly created bar, an update at the creation instant (zero elapsed time)
reports both ETA and speed as N/A in both variants. On any bar, an update
with value 0 at positive elapsed time and positive total reports ETA as
Infinity, not the N/A placeholder, in both variants; the displayed speed for
a value-0 update is not forced to a placeholder either: the throttled
variant follows the normal throttle rule (N/A exactly when less than 100ms
has elapsed since the stored sample, otherwise the recomputed rate
(0 - lastValue) / timeDiff), and the simple variant shows the number 0 at
any positive elapsed time. -/
theorem c3_degenerate (bar : Bar) (total s v now : ℚ) :
    ((updateProgress (createProgressBar total s) v s).eta = EtaText.na ∧
     (updateProgress (createProgressBar total s) v s).speed = SpeedText.na ∧
     (updateProgressSimple (createProgressBarSimple total s) v s).eta = EtaText.na ∧
     (updateProgressSimple (createProgressBarSimple total s) v s).speed = SpeedText.na) ∧
    (0 < (now - bar.start) / 1000 → 0 < bar.total →
      (updateProgress bar 0 now).eta = EtaText.infinity ∧
      (updateProgressSimple bar 0 now).eta = EtaText.infinity) ∧
    ((now - bar.lastUpdate) / 1000 < 1/10 →
      (updateProgress bar 0 now).speed = SpeedText.na) ∧
    (1/10 ≤ (now - bar.lastUpdate) / 1000 →
      (updateProgress bar 0 now).speed =
        SpeedText.rate ((0 - bar.lastValue) / ((now - bar.lastUpdate) / 1000))) ∧
    (0 < (now - bar.start) / 1000 →
      (updateProgressSimple bar 0 now).speed = SpeedText.mbps 0) := by
  refine ⟨?_,
    fun ht htot => ⟨updateProgress_eta_zero_value bar now ht htot,
      updateProgressSimple_eta_zero_value bar now ht htot⟩,
    fun h => (updateProgress_speed_skip bar 0 now h).1,
    fun h => (updateProgress_speed_recompute bar 0 now h).1,
    fun ht => updateProgressSimple_speed_zero_value bar now ht⟩
  simp only [updateProgress, updateProgressSimple, createProgressBar,
    createProgressBarSimple, barUpdate]
  norm_num

/-- Witness for c3_degenerate: total 100, creation time 0; a value-5 update
at the creation instant shows N/A; value-0 updates at 10000ms show ETA
Infinity and the recomputed rate, at 50ms the N/A speed, and in the simple
variant speed 0. -/
theorem c3_degenerate_witness :
    (updateProgress (createProgressBar 100 0) 5 0).eta = EtaText.na ∧
    (0:ℚ) < (10000 - (createProgressBar 100 0).start) / 1000 ∧
    (0:ℚ) < (createProgressBar 100 0).total ∧
    (updateProgress (createProgressBar 100 0) 0 10000).eta = EtaText.infinity ∧
    (updateProgress (createProgressBar 100 0) 0 50).speed = SpeedText.na ∧
    (updateProgress (createProgressBar 100 0) 0 10000).speed =
      SpeedText.rate ((0 - (createProgressBar 100 0).lastValue) /
        ((10000 - (createProgressBar 100 0).lastUpdate) / 1000)) ∧
    (updateProgressSimple (createProgressBarSimple 100 0) 0 10000).speed =
      SpeedText.mbps 0 :=
  ⟨((c3_degenerate (createProgressBar 100 0) 100 0 5 10000).1).1,
   by norm_num [createProgressBar], by norm_num [createProgressBar],
   ((c3_degenerate (createProgressBar 100 0) 100 0 5 10000).2.1
     (by norm_num [createProgressBar]) (by norm_num [createProgressBar])).1,
   (c3_degenerate (createProgressBar 100 0) 100 0 5 50).2.2.1
     (by norm_num [createProgressBar]),
   (c3_degenerate (createProgressBar 100 0) 100 0 5 10000).2.2.2.1
     (by norm_num [createProgressBar]),
   (c3_degenerate (createProgressBarSimple 100 0) 100 0 5 10000).2.2.2.2
     (by norm_num [createProgressBarSimple])⟩

/-- C4: for every update with positive value and positive elapsed time since
creation, the displayed ETA is (total - value) / averageRate where
averageRate = value / elapsedTimeSinceStart, in both variants; it does not
use the throttled instantaneous rate. -/
theorem c4_eta_average (bar : Bar) (value now : ℚ)
    (hv : 0 < value) (ht : 0 < (now - bar.start) / 1000) :
    (updateProgress bar value now).eta =
      EtaText.num ((bar.total - value) / averageRate bar value now) ∧
    (updateProgressSimple bar value now).eta =
      EtaText.num ((bar.total - value) / averageRate bar value now) := by
  have hr : value / ((now - bar.start) / 1000) ≠ 0 := ne_of_gt (div_pos hv ht)
  exact ⟨updateProgress_eta_pos bar value now ht hr,
    updateProgressSimple_eta_pos bar value now ht hr⟩

/-- Witness for c4_eta_average: a bar with total 100 created at 0, updated to
value 50 at 10000ms, shows ETA 50 / 5 = 10 seconds. -/
theorem c4_eta_average_witness :
    (0:ℚ) < 50 ∧ (0:ℚ) < (10000 - (createProgressBar 100 0).start) / 1000 ∧
    (updateProgress (createProgressBar 100 0) 50 10000).eta =
      EtaText.num (((createProgressBar 100 0).total - 50) /
        averageRate (createProgressBar 100 0) 50 10000) :=
  ⟨by norm_num, by norm_num [createProgressBar],
   (c4_eta_average (createProgressBar 100 0) 50 10000 (by norm_num)
      (by norm_num [createProgressBar])).1⟩

/-- C5 counterexample: in the part_001 variant, a bar with total 100 created
at 0, updated to 50 at 10000ms (speed 5 MB/s, ETA 10) and then completed,
ends with value 100 but still displays speed "5.00 MB/s" and ETA "10", not
the "Done" marker and ETA 0 the claim asserts. -/
theorem c5_counterexample :
    (completeProgressSimple (updateProgressSimple
        (createProgressBarSimple 100 0) 50 10000)).value = 100 ∧
    (completeProgressSimple (updateProgressSimple
        (createProgressBarSimple 100 0) 50 10000)).speed = SpeedText.mbps 5 ∧
    (completeProgressSimple (updateProgressSimple
        (createProgressBarSimple 100 0) 50 10000)).eta = EtaText.num 10 ∧
    SpeedText.mbps 5 ≠ SpeedText.done ∧ EtaText.num 10 ≠ EtaText.num 0 := by
  norm_num [completeProgressSimple, updateProgressSimple, createProgressBarSimple,
    barUpdate, barUpdateValue, jsDiv, etaTextOfJSNum]
  decide

/-- C5 amended: in both variants complete forces the value to the total and
is idempotent; the logger.js variant additionally displays speed "Done" and
ETA "0", while the part_001 variant leaves the previously displayed speed and
ETA text unchanged. -/
theorem c5_complete_state (bar : Bar) :
    (completeProgress bar).value = bar.total ∧
    (completeProgress bar).speed = SpeedText.done ∧
    (completeProgress bar).eta = EtaText.num 0 ∧
    completeProgress (completeProgress bar) = completeProgress bar ∧
    (completeProgressSimple bar).value = bar.total ∧
    (completeProgressSimple bar).speed = bar.speed ∧
    (completeProgressSimple bar).eta = bar.eta ∧
    completeProgressSimple (completeProgressSimple bar) = completeProgressSimple bar :=
  ⟨rfl, rfl, rfl, rfl, rfl, rfl, rfl, rfl⟩

/-- In the constant-rate scenario the total is never changed by the updates. -/
theorem runConstantRate_total (total inc step : ℚ) (n : ℕ) :
    (runConstantRate total inc step n).total = total := by
  induction n with
  | zero => rfl
  | succ n ih => simpa [runConstantRate, updateProgress_total] using ih

/-- In the constant-rate scenario the creation timestamp stays 0. -/
theorem runConstantRate_start (total inc step : ℚ) (n : ℕ) :
    (runConstantRate total inc step n).start = 0 := by
  induction n with
  | zero => rfl
  | succ n ih => simpa [runConstantRate, updateProgress_start] using ih

/-- Closed form of the ETA after the n-th constant-rate sample (n ≥ 1): the
average rate is the constant 1000 * inc / step, so the ETA is
(total - n * inc) * (step / 1000) / inc. -/
theorem runConstantRate_eta (total inc step : ℚ) (hinc : 0 < inc)
    (hstep : 0 < step) (n : ℕ) (hn : 1 ≤ n) :
    (runConstantRate total inc step n).eta =
      EtaText.num ((total - (n : ℚ) * inc) * (step / 1000) / inc) := by
  obtain ⟨m, rfl⟩ : ∃ m, n = m + 1 := ⟨n - 1, by omega⟩
  have hb := runConstantRate_start total inc step m
  have hbt := runConstantRate_total total inc step m
  have hm : (0:ℚ) < (m : ℚ) + 1 := by positivity
  have ht : 0 < (((m : ℚ) + 1) * step -
      (runConstantRate total inc step m).start) / 1000 := by
    rw [hb, sub_zero]; positivity
  have hv : 0 < ((m : ℚ) + 1) * inc := by positivity
  have hr : (((m : ℚ) + 1) * inc) / ((((m : ℚ) + 1) * step -
      (runConstantRate total inc step m).start) / 1000) ≠ 0 :=
    ne_of_gt (div_pos hv ht)
  show (updateProgress (runConstantRate total inc step m)
      (((m : ℚ) + 1) * inc) (((m : ℚ) + 1) * step)).eta = _
  rw [updateProgress_eta_pos _ _ _ ht hr, hb, hbt]
  push_cast
  rw [sub_zero]
  congr 1
  have hm0 : ((m : ℚ) + 1) ≠ 0 := ne_of_gt hm
  have hinc0 : inc ≠ 0 := ne_of_gt hinc
  have hstep0 : step ≠ 0 := ne_of_gt hstep
  field_simp
  ring

/-- C6: for every constant-rate input sequence with positive increment and
positive time step, and samples staying within the total, the ETA computed by
successive updates is monotonically non-increasing from each sample to the
next. -/
theorem c6_eta_monotone (total inc step : ℚ) (n : ℕ)
    (hinc : 0 < inc) (hstep : 0 < step) (hn : 1 ≤ n)
    (hle : ((n : ℚ) + 1) * inc ≤ total) :
    (runConstantRate total inc step n).eta =
      EtaText.num ((total - (n : ℚ) * inc) * (step / 1000) / inc) ∧
    (runConstantRate total inc step (n + 1)).eta =
      EtaText.num ((total - ((n : ℚ) + 1) * inc) * (step / 1000) / inc) ∧
    (total - ((n : ℚ) + 1) * inc) * (step / 1000) / inc ≤
      (total - (n : ℚ) * inc) * (step / 1000) / inc := by
  have h1 := runConstantRate_eta total inc step hinc hstep n hn
  have h2 := runConstantRate_eta total inc step hinc hstep (n + 1) (by omega)
  push_cast at h2
  refine ⟨h1, h2, ?_⟩
  have hsub : total - ((n : ℚ) + 1) * inc ≤ total - (n : ℚ) * inc := by nlinarith
  have hc : (0:ℚ) ≤ step / 1000 := by positivity
  exact div_le_div_of_nonneg_right (mul_le_mul_of_nonneg_right hsub hc) hinc.le

/-- Witness for c6_eta_monotone: total 100, increment 10, step 100ms, first
sample; ETA goes from 0.9s at sample 1 to 0.8s at sample 2. -/
theorem c6_eta_monotone_witness :
    (runConstantRate 100 10 100 1).eta = EtaText.num (9/10) ∧
    (runConstantRate 100 10 100 2).eta = EtaText.num (4/5) ∧
    ((4:ℚ)/5) ≤ 9/10 := by
  obtain ⟨h1, h2, _⟩ :=
    c6_eta_monotone 100 10 100 1 (by norm_num) (by norm_num) (le_refl 1) (by norm_num)
  norm_num at h1 h2
  exact ⟨h1, h2, by norm_num⟩

/-- C7: over any sequence of update and complete calls, in either variant,
the total and the creation timestamp of the bar keep the values set at
creation; no operation reassigns them. -/
theorem c7_total_start_immutable (bar : Bar) (ops : List ProgressOp) :
    (runOps bar ops).total = bar.total ∧ (runOps bar ops).start = bar.start ∧
    (runOpsSimple bar ops).total = bar.total ∧
    (runOpsSimple bar ops).start = bar.start := by
  induction ops generalizing bar with
  | nil => exact ⟨rfl, rfl, rfl, rfl⟩
  | cons op ops ih =>
    have h := ih (applyOp bar op)
    have h2 := ih (applyOpSimple bar op)
    have ht : (applyOp bar op).total = bar.total := by cases op <;> rfl
    have hs : (applyOp bar op).start = bar.start := by cases op <;> rfl
    have ht2 : (applyOpSimple bar op).total = bar.total := by cases op <;> rfl
    have hs2 : (applyOpSimple bar op).start = bar.start := by cases op <;> rfl
    simp only [runOps, runOpsSimple, List.foldl_cons] at h h2 ⊢
    exact ⟨h.1.trans ht, h.2.1.trans hs, h2.2.2.1.trans ht2, h2.2.2.2.trans hs2⟩

/-- C8: creating a tracker yields a handle whose total is the given total,
whose start is the creation time, whose value is 0, and whose speed and ETA
placeholders are "N/A", in both variants. -/
theorem c8_create_state (total now : ℚ) (htot : 0 < total) :
    (createProgressBar total now).total = total ∧
    (createProgressBar total now).start = now ∧
    (createProgressBar total now).value = 0 ∧
    (createProgressBar total now).speed = SpeedText.na ∧
    (createProgressBar total now).eta = EtaText.na ∧
    (createProgressBarSimple total now).total = total ∧
    (createProgressBarSimple total now).start = now ∧
    (createProgressBarSimple total now).value = 0 ∧
    (createProgressBarSimple total now).speed = SpeedText.na ∧
    (createProgressBarSimple total now).eta = EtaText.na :=
  ⟨rfl, rfl, rfl, rfl, rfl, rfl, rfl, rfl, rfl, rfl⟩

/-- Witness for c8_create_state at total 100, creation time 0. -/
theorem c8_create_state_witness :
    (0:ℚ) < 100 ∧ (createProgressBar 100 0).value = 0 ∧
    (createProgressBarSimple 100 0).value = 0 :=
  ⟨by norm_num, (c8_create_state 100 0 (by norm_num)).2.2.1,
   (c8_create_state 100 0 (by norm_num)).2.2.2.2.2.2.2.1⟩

/-- C9: given the same bar state and the same value and current time, the
throttled variant (logger.js) and the simple variant (part_001) of
updateProgress produce the same ETA text, the same stored value, and leave
the same total and creation timestamp; only the displayed speed text (and
the throttle bookkeeping) can differ. -/
theorem c9_variants_agree (bar : Bar) (value now : ℚ) :
    (updateProgress bar value now).eta = (updateProgressSimple bar value now).eta ∧
    (updateProgress bar value now).value = (updateProgressSimple bar value now).value ∧
    (updateProgress bar value now).total = (updateProgressSimple bar value now).total ∧
    (updateProgress bar value now).start = (updateProgressSimple bar value now).start :=
  ⟨rfl, rfl, rfl, rfl⟩

/-- C10: every value an in-repository caller passes to updateProgress is at
most the total the bar was created with: the download drivers pass
min(downloadedSize, expectedSize) against total expectedSize, and the
folder-creation loop passes i + 1 against total folderCount. -/
theorem c10_callers_bounded (chunkLengths : List ℕ) (expectedSize : ℚ)
    (folderCount : ℕ) :
    (∀ v ∈ downloadProgressValues chunkLengths expectedSize, v ≤ expectedSize) ∧
    (∀ v ∈ folderProgressValues folderCount, v ≤ folderCount) := by
  constructor
  · intro v hv
    simp only [downloadProgressValues, List.mem_map] at hv
    obtain ⟨s, _, rfl⟩ := hv
    exact min_le_right _ _
  · intro v hv
    simp only [folderProgressValues, List.mem_map, List.mem_range] at hv
    obtain ⟨i, hi, rfl⟩ := hv
    omega

/-- Witness for c10_callers_bounded: one 20MB chunk against an expected size
of 10MB passes the clamped value 10 ≤ 10, and the third folder of three
passes 3 ≤ 3. -/
theorem c10_callers_bounded_witness :
    ((10:ℚ) ∈ downloadProgressValues [20971520] 10 ∧ (10:ℚ) ≤ 10) ∧
    (3 ∈ folderProgressValues 3 ∧ 3 ≤ 3) := by
  have hmem : (10:ℚ) ∈ downloadProgressValues [20971520] 10 := by
    norm_num [downloadProgressValues, List.scanl, min_def]
  have hmem2 : 3 ∈ folderProgressValues 3 := by
    simp [folderProgressValues]
  exact ⟨⟨hmem, (c10_callers_bounded [20971520] 10 3).1 10 hmem⟩,
    ⟨hmem2, (c10_callers_bounded [20971520] 10 3).2 3 hmem2⟩⟩
